import Mathlib

/-!
Shallow embedding of `nexus_pipeline.py`, a multi-stage data processing
pipeline with pluggable format adapters, execution statistics and a one-shot
failure-recovery mechanism.  Python runtime values are modelled by the
inductive type `Val`; Python exceptions by `PyErr` threaded through
`Except`; wall-clock measurements (`time.perf_counter` differences) by an
explicit `Clock` supplying one duration per measurement.  Floats are
modelled as rationals.
-/

/-- Model of a Python runtime value as used by the pipeline: `None`, `bool`,
`int`, `float` (as a rational), `str`, `list`, and `dict` (an
insertion-ordered association list; Python dict assignment replaces the
value in place, `setdefault` appends). -/
inductive Val where
  | vnull : Val
  | vbool (b : Bool) : Val
  | vint (n : ℤ) : Val
  | vfloat (q : ℚ) : Val
  | vstr (s : String) : Val
  | vlist (xs : List Val) : Val
  | vdict (kvs : List (Val × Val)) : Val

/-- Whether a value is a Python `str`. -/
def Val.isStr : Val → Bool
  | .vstr _ => true
  | _ => false

/-- Python `type(v).__name__`. -/
def pyTypeName : Val → String
  | .vnull => "NoneType"
  | .vbool _ => "bool"
  | .vint _ => "int"
  | .vfloat _ => "float"
  | .vstr _ => "str"
  | .vlist _ => "list"
  | .vdict _ => "dict"

/-- Single-quote character, built by code point to keep source text plain. -/
def sqC : Char := Char.ofNat 39

/-- Double-quote character. -/
def dqC : Char := Char.ofNat 34

/-- Opening-brace character. -/
def lbC : Char := Char.ofNat 123

/-- Closing-brace character. -/
def rbC : Char := Char.ofNat 125

/-- Single-quote as a one-character string. -/
def sqS : String := String.singleton sqC

/-- Double-quote as a one-character string. -/
def dqS : String := String.singleton dqC

/-- Python `c in s` membership of a character (a character-list traversal,
so that proofs can evaluate it by reduction). -/
def charIn (s : String) (c : Char) : Bool := s.toList.contains c

/-- Python `s.lower()` (ASCII case mapping, which covers all data the
program manipulates). -/
def pyLower (s : String) : String := String.mk (s.toList.map Char.toLower)

/-- Python `s.upper()` (ASCII case mapping). -/
def pyUpper (s : String) : String := String.mk (s.toList.map Char.toUpper)

/-- Whitespace stripped by Python `str.strip`. -/
def isSpaceC (c : Char) : Bool := c = ' ' || c = '\t' || c = '\n' || c = '\r'

/-- Python `s.strip()`. -/
def pyStrip (s : String) : String :=
  String.mk (((s.toList.dropWhile isSpaceC).reverse.dropWhile isSpaceC).reverse)

/-- Split a character list at every occurrence of a separator. -/
def splitCharList (sep : Char) : List Char → List (List Char)
  | [] => [[]]
  | c :: rest =>
    match splitCharList sep rest with
    | [] => [[c]]
    | g :: gs => if c = sep then [] :: g :: gs else (c :: g) :: gs

/-- Python `s.split(sep)` for a one-character separator: always returns at
least one part; the empty string yields one empty part. -/
def pySplitChar (s : String) (sep : Char) : List String :=
  (splitCharList sep s.toList).map String.mk

/-- Python `repr` of a string: single quotes by default, double quotes when
the text contains a single quote but no double quote (escape sequences are
not modelled; no message rendered by this program needs them). -/
def pyReprStr (s : String) : String :=
  if charIn s sqC && !(charIn s dqC) then dqS ++ s ++ dqS
  else sqS ++ s ++ sqS

/-- Decimal digits of the fractional part of `x ∈ [0, 1)`, up to `n` digits;
`none` when the expansion does not terminate within `n` digits. -/
def fracDigits : ℕ → ℚ → Option String
  | 0, x => if x = 0 then some "" else none
  | n + 1, x =>
    if x = 0 then some ""
    else
      let d := (⌊x * 10⌋).toNat
      (fracDigits n (x * 10 - d)).map (fun rest => toString d ++ rest)

/-- Rendering of a float (modelled as ℚ) in the style of Python `repr`:
sign, integer part, point, fractional digits (at least one).  A value whose
decimal expansion does not terminate within 17 digits is rendered as
`num/den`; no claim inspects such a rendering. -/
def floatRepr (q : ℚ) : String :=
  let sign := if q < 0 then "-" else ""
  let a : ℚ := |q|
  let ip : ℕ := (⌊a⌋).toNat
  match fracDigits 17 (a - ⌊a⌋) with
  | some "" => sign ++ toString ip ++ ".0"
  | some ds => sign ++ toString ip ++ "." ++ ds
  | none => toString q.num ++ "/" ++ toString q.den

/-- Python `repr` of a value (used by `str` on containers). -/
def pyRepr : Val → String
  | .vnull => "None"
  | .vbool b => if b then "True" else "False"
  | .vint n => toString n
  | .vfloat q => floatRepr q
  | .vstr s => pyReprStr s
  | .vlist xs =>
      "[" ++ String.intercalate ", " (xs.attach.map (fun y => pyRepr y.1)) ++ "]"
  | .vdict kvs =>
      String.singleton lbC ++
        String.intercalate ", "
          (kvs.attach.map (fun y => pyRepr y.1.1 ++ ": " ++ pyRepr y.1.2)) ++
        String.singleton rbC
decreasing_by
  · have h := List.sizeOf_lt_of_mem y.2
    simp only [Val.vlist.sizeOf_spec]
    omega
  · have h := List.sizeOf_lt_of_mem y.2
    have h2 : sizeOf y.1.1 < sizeOf y.1 := by
      rcases y.1 with ⟨a, b⟩
      simp only [Prod.mk.sizeOf_spec]
      omega
    simp only [Val.vdict.sizeOf_spec]
    omega
  · have h := List.sizeOf_lt_of_mem y.2
    have h2 : sizeOf y.1.2 < sizeOf y.1 := by
      rcases y.1 with ⟨a, b⟩
      simp only [Prod.mk.sizeOf_spec]
      omega
    simp only [Val.vdict.sizeOf_spec]
    omega

/-- Python `str` of a value: identity on strings, `repr` otherwise (for the
types appearing here `str` and `repr` agree on non-strings). -/
def pyStr : Val → String
  | .vstr s => s
  | v => pyRepr v

/-- Python exceptions raised by the program: `ValueError` (invalid input
type and invalid adapter formats), `KeyError` (manager lookups),
`AttributeError` (calling `.get` on a non-dict), `TypeError` (iterating a
non-iterable), and `json.JSONDecodeError` from `json.loads` (a `ValueError`
subclass; its message is simplified to its leading phrase). -/
inductive PyErr where
  | valueError (msg : String) : PyErr
  | keyError (arg : String) : PyErr
  | attributeError (msg : String) : PyErr
  | typeError (msg : String) : PyErr
  | jsonDecodeError (msg : String) : PyErr
deriving DecidableEq, Repr

/-- Python `type(e).__name__` for an exception. -/
def errTypeName : PyErr → String
  | .valueError _ => "ValueError"
  | .keyError _ => "KeyError"
  | .attributeError _ => "AttributeError"
  | .typeError _ => "TypeError"
  | .jsonDecodeError _ => "JSONDecodeError"

/-- Python `str(e)`: the message, except that `str` of a `KeyError` is the
`repr` of its argument. -/
def errStr : PyErr → String
  | .valueError m => m
  | .keyError a => pyReprStr a
  | .attributeError m => m
  | .typeError m => m
  | .jsonDecodeError m => m

/-- The error description format used throughout the program, Python
`f-string` of the form `type(e).__name__: e`. -/
def errDesc (e : PyErr) : String := errTypeName e ++ ": " ++ errStr e

/-- Whether a dict key equals the given string (all keys looked up by this
program are strings). -/
def keyIs (k : Val) (s : String) : Bool :=
  match k with
  | .vstr t => t = s
  | _ => false

/-- Python `d.get(k)` / `k in d`: first (unique) matching entry. -/
def dictGet : List (Val × Val) → String → Option Val
  | [], _ => none
  | kv :: rest, s => if keyIs kv.1 s then some kv.2 else dictGet rest s

/-- Python `d.get(k, default)`. -/
def dictGetD (d : List (Val × Val)) (s : String) (dflt : Val) : Val :=
  (dictGet d s).getD dflt

/-- Python `d[k] = v`: replaces the value of an existing key in place,
otherwise appends the new entry (insertion order preserved). -/
def dictSet : List (Val × Val) → String → Val → List (Val × Val)
  | [], s, v => [(.vstr s, v)]
  | kv :: rest, s, v =>
      if keyIs kv.1 s then (.vstr s, v) :: rest else kv :: dictSet rest s v

/-- Python `d.setdefault(k, v)`: inserts only when the key is absent. -/
def dictSetdefault (d : List (Val × Val)) (s : String) (v : Val) :
    List (Val × Val) :=
  if (dictGet d s).isSome then d else d ++ [(.vstr s, v)]

/-- Python `for x in v`: lists yield elements, strings yield characters,
dicts yield keys; other values raise `TypeError`. -/
def pyIter : Val → Except PyErr (List Val)
  | .vlist xs => .ok xs
  | .vstr s => .ok (s.toList.map (fun c => .vstr (String.singleton c)))
  | .vdict kvs => .ok (kvs.map (fun kv => kv.1))
  | v => .error (.typeError (sqS ++ pyTypeName v ++ sqS ++ " object is not iterable"))

/-- Whether `pat` is a leading segment of `cs`. -/
def listHasPre : List Char → List Char → Bool
  | [], _ => true
  | _ :: _, [] => false
  | p :: ps, c :: cs => p = c && listHasPre ps cs

/-- Whether `pat` occurs contiguously inside the list. -/
def listHasSub (pat : List Char) : List Char → Bool
  | [] => listHasPre pat []
  | c :: cs => listHasPre pat (c :: cs) || listHasSub pat cs

/-- Substring test, `pat in s` for Python strings. -/
def containsSub (s pat : String) : Bool := listHasSub pat.toList s.toList

/-- Round half to even, as Python string formatting of floats does at ties. -/
def rhe (q : ℚ) : ℤ :=
  let f := ⌊q⌋
  let frac := q - f
  if frac < 1 / 2 then f
  else if frac > 1 / 2 then f + 1
  else if f % 2 = 0 then f else f + 1

/-- Python format `:.1f` on a float modelled as ℚ. -/
def formatFixed1 (q : ℚ) : String :=
  let n := rhe (q * 10)
  let sign := if n < 0 then "-" else ""
  let a := n.natAbs
  sign ++ toString (a / 10) ++ "." ++ toString (a % 10)

/-- Python format `:.0f` on a float modelled as ℚ. -/
def formatFixed0 (q : ℚ) : String := toString (rhe q)

/-- Python `isinstance(v, (int, float))`; `bool` is a subclass of `int` and
therefore included. -/
def isNumericPy : Val → Bool
  | .vint _ => true
  | .vfloat _ => true
  | .vbool _ => true
  | _ => false

/-- Python `float(v)` on the numeric values above. -/
def pyFloat : Val → ℚ
  | .vint n => (n : ℚ)
  | .vfloat q => q
  | .vbool b => if b then 1 else 0
  | _ => 0

/-- JSON whitespace. -/
def isJWs (c : Char) : Bool := c = ' ' || c = '\t' || c = '\n' || c = '\r'

/-- Skip leading JSON whitespace. -/
def skipWs : List Char → List Char
  | [] => []
  | c :: cs => if isJWs c then skipWs cs else c :: cs

/-- Value of a list of decimal digit characters. -/
def digitsToNat (ds : List Char) : ℕ :=
  ds.foldl (fun a c => a * 10 + (c.toNat - 48)) 0

/-- Parse a JSON number (optional minus, digits, optional fraction; the
exponent form is not modelled — no claim exercises it).  Integers become
`vint`, fractions become `vfloat`. -/
def parseNum (cs : List Char) : Option (Val × List Char) :=
  let p := match cs with
    | c :: rest => if c = '-' then (true, rest) else (false, cs)
    | [] => (false, cs)
  let neg := p.1
  let cs1 := p.2
  let intDs := cs1.takeWhile Char.isDigit
  let cs2 := cs1.drop intDs.length
  if intDs.isEmpty then none
  else
    match cs2 with
    | '.' :: cs3 =>
      let fracDs := cs3.takeWhile Char.isDigit
      if fracDs.isEmpty then none
      else
        let cs4 := cs3.drop fracDs.length
        let mag : ℚ :=
          (digitsToNat intDs : ℚ) + (digitsToNat fracDs : ℚ) / ((10 : ℚ) ^ fracDs.length)
        some (.vfloat (if neg then -mag else mag), cs4)
    | _ =>
      let n : ℤ := (digitsToNat intDs : ℤ)
      some (.vint (if neg then -n else n), cs2)

/-- Parse the remainder of a JSON string after its opening quote, handling
the one-character escapes (the `\uXXXX` form is not modelled). -/
def parseJStr : List Char → Option (String × List Char)
  | [] => none
  | c :: cs =>
    if c = dqC then some ("", cs)
    else if c = '\\' then
      match cs with
      | [] => none
      | e :: cs2 =>
        let esc : Option Char :=
          if e = dqC then some dqC
          else if e = '\\' then some '\\'
          else if e = '/' then some '/'
          else if e = 'n' then some '\n'
          else if e = 't' then some '\t'
          else if e = 'r' then some '\r'
          else if e = 'b' then some (Char.ofNat 8)
          else if e = 'f' then some (Char.ofNat 12)
          else none
        match esc with
        | some ch => (parseJStr cs2).map (fun r => (String.singleton ch ++ r.1, r.2))
        | none => none
    else (parseJStr cs).map (fun r => (String.singleton c ++ r.1, r.2))

mutual

/-- Parse one JSON value (fuelled recursive-descent model of `json.loads`). -/
def parseJVal : ℕ → List Char → Option (Val × List Char)
  | 0, _ => none
  | f + 1, cs0 =>
    match skipWs cs0 with
    | [] => none
    | c :: cs =>
      if c = dqC then (parseJStr cs).map (fun r => (Val.vstr r.1, r.2))
      else if c = lbC then
        match skipWs cs with
        | c2 :: r2 => if c2 = rbC then some (.vdict [], r2) else
            (parseJObjRest f (c2 :: r2)).map
              (fun r => (Val.vdict (r.1.foldl (fun d kv => dictSet d kv.1 kv.2) []), r.2))
        | [] => none
      else if c = '[' then
        match skipWs cs with
        | ']' :: r2 => some (.vlist [], r2)
        | r2 => (parseJArrRest f r2).map (fun r => (Val.vlist r.1, r.2))
      else if c = 't' then
        match cs with
        | 'r' :: 'u' :: 'e' :: r => some (.vbool true, r)
        | _ => none
      else if c = 'f' then
        match cs with
        | 'a' :: 'l' :: 's' :: 'e' :: r => some (.vbool false, r)
        | _ => none
      else if c = 'n' then
        match cs with
        | 'u' :: 'l' :: 'l' :: r => some (.vnull, r)
        | _ => none
      else parseNum (c :: cs)

/-- Parse `value (, value)* ]`, the tail of a non-empty JSON array. -/
def parseJArrRest : ℕ → List Char → Option (List Val × List Char)
  | 0, _ => none
  | f + 1, cs =>
    (parseJVal f cs).bind (fun r =>
      match skipWs r.2 with
      | ',' :: r2 => (parseJArrRest f r2).map (fun t => (r.1 :: t.1, t.2))
      | ']' :: r2 => some ([r.1], r2)
      | _ => none)

/-- Parse `"key": value (, "key": value)* close-brace`, the tail of a
non-empty JSON object, as an ordered key/value list. -/
def parseJObjRest : ℕ → List Char → Option (List (String × Val) × List Char)
  | 0, _ => none
  | f + 1, cs =>
    match skipWs cs with
    | [] => none
    | c :: r =>
      if c = dqC then
        (parseJStr r).bind (fun k =>
          match skipWs k.2 with
          | ':' :: r2 =>
            (parseJVal f r2).bind (fun v =>
              match skipWs v.2 with
              | ',' :: r4 => (parseJObjRest f r4).map (fun t => ((k.1, v.1) :: t.1, t.2))
              | rb :: r4 => if rb = rbC then some ([(k.1, v.1)], r4) else none
              | _ => none)
          | _ => none)
      else none

end

/-- Model of `json.loads`: parse one value and require only whitespace to
follow; failures raise `json.JSONDecodeError` (messages keep only the
leading phrase of CPython's message). -/
def jsonLoads (s : String) : Except PyErr Val :=
  let cs := s.toList
  match parseJVal (2 * cs.length + 4) cs with
  | some r => if (skipWs r.2).isEmpty then .ok r.1 else .error (.jsonDecodeError "Extra data")
  | none => .error (.jsonDecodeError "Expecting value")

/-- The stage classes defined in the source: `InputStage`, `TransformStage`,
`OutputStage` and `BackupTransformStage`.  All pipelines in the program are
built from these (every adapter is constructed with the default topology and
recovery only swaps in the backup stage). -/
inductive Stage where
  | input : Stage
  | transform : Stage
  | output : Stage
  | backupTransform : Stage
deriving DecidableEq, Repr

/-- Python `stage.__class__.__name__`, the key used for stage timings. -/
def stageName : Stage → String
  | .input => "InputStage"
  | .transform => "TransformStage"
  | .output => "OutputStage"
  | .backupTransform => "BackupTransformStage"

/-- The `_meta` value installed by `TransformStage` on dict input. -/
def metaNexus : Val :=
  .vdict [(.vstr "validated", .vbool true), (.vstr "source", .vstr "nexus")]

/-- The `_meta` value installed by `TransformStage` on recognised strings. -/
def metaValidated : Val := .vdict [(.vstr "validated", .vbool true)]

/-- The `_meta` value installed by `BackupTransformStage`. -/
def metaBackup : Val :=
  .vdict [(.vstr "validated", .vbool true), (.vstr "source", .vstr "backup")]

/-- Python dict comprehension of `TransformStage`, coercing every key to
`str` (a later duplicate overwrites the value, keeping the first position,
exactly as a Python dict comprehension does). -/
def coerceKeys (kvs : List (Val × Val)) : List (Val × Val) :=
  kvs.foldl (fun acc kv => dictSet acc (pyStr kv.1) kv.2) []

/-- Semantics of `Stage.process`, translated branch by branch from the source.
`InputStage` accepts only `str`, `dict` and `list`; `TransformStage`
enriches dicts, comma-strings without newline, and "stream" strings;
`OutputStage` is the identity; `BackupTransformStage` never fails. -/
def stageProcess : Stage → Val → Except PyErr Val
  | .input, v =>
    match v with
    | .vstr _ => .ok v
    | .vdict _ => .ok v
    | .vlist _ => .ok v
    | _ => .error (.valueError "Invalid input type")
  | .transform, v =>
    match v with
    | .vdict kvs => .ok (.vdict (dictSet (coerceKeys kvs) "_meta" metaNexus))
    | .vstr s =>
      if charIn s ',' && !(charIn s '\n') then
        .ok (.vdict [(.vstr "csv_header",
                      .vlist (((pySplitChar s ',').map pyStrip).map Val.vstr)),
                     (.vstr "_meta", metaValidated)])
      else if containsSub (pyLower s) "stream" then
        .ok (.vdict [(.vstr "stream", .vstr s), (.vstr "_meta", metaValidated)])
      else .ok v
    | _ => .ok v
  | .output, v => .ok v
  | .backupTransform, v =>
    match v with
    | .vdict kvs => .ok (.vdict (dictSetdefault kvs "_meta" metaBackup))
    | _ => .ok (.vdict [(.vstr "raw", v), (.vstr "_meta", metaBackup)])

/-- Model of `PipelineStats`, the mutable statistics record of a pipeline; the
stage-timing dict maps a stage name to a cumulative duration. -/
structure PipelineStats where
  pipeline_id : String
  processed : ℕ
  failed : ℕ
  recovered : ℕ
  total_time_s : ℚ
  last_error : String
  stage_timings_s : List (String × ℚ)
deriving DecidableEq, Repr

/-- Lookup in the stage-timing dict. -/
def timingsGet : List (String × ℚ) → String → Option ℚ
  | [], _ => none
  | kv :: rest, k => if kv.1 = k then some kv.2 else timingsGet rest k

/-- Assignment in the stage-timing dict (replace in place or append). -/
def timingsSet : List (String × ℚ) → String → ℚ → List (String × ℚ)
  | [], k, v => [(k, v)]
  | kv :: rest, k, v => if kv.1 = k then (k, v) :: rest else kv :: timingsSet rest k v

/-- The accumulation `t[k] = t.get(k, 0.0) + dt` used by `run_stages`. -/
def timingsAdd (t : List (String × ℚ)) (k : String) (dt : ℚ) : List (String × ℚ) :=
  timingsSet t k ((timingsGet t k).getD 0 + dt)

/-- Wall-clock oracle: each `time.perf_counter` duration measurement pops
the next value (0 once exhausted).  Durations are inputs of the model since
they are not computable from the data. -/
structure Clock where
  durs : List ℚ
deriving DecidableEq, Repr

/-- Pop one measured duration. -/
def Clock.tick (c : Clock) : ℚ × Clock := (c.durs.headD 0, ⟨c.durs.tail⟩)

/-- A clock is admissible when every duration it will report is
nonnegative, as real `time.perf_counter` differences are. -/
def Clock.Nonneg (c : Clock) : Prop := ∀ d ∈ c.durs, 0 ≤ d

/-- The mutable pipeline state: stage sequence, statistics and recovery
flag (`ProcessingPipeline.__init__`). -/
structure PipeState where
  pipeline_id : String
  stages : List Stage
  stats : PipelineStats
  recovery_enabled : Bool
deriving DecidableEq, Repr

/-- Replace the statistics record of a pipeline state. -/
def setStats (p : PipeState) (st : PipelineStats) : PipeState :=
  { p with stats := st }

/-- Model of `ProcessingPipeline.run_stages`: run the stages in order, timing each
successful stage and accumulating the duration under its class name; a
stage failure aborts immediately (the failing stage's time is not
recorded, since the exception propagates before the accumulation line). -/
def run_stages : List Stage → Val → PipelineStats → Clock →
    Except PyErr Val × PipelineStats × Clock
  | [], v, st, c => (.ok v, st, c)
  | s :: rest, v, st, c =>
    let t := c.tick
    match stageProcess s v with
    | .error e => (.error e, st, t.2)
    | .ok v1 =>
      run_stages rest v1
        { st with stage_timings_s := timingsAdd st.stage_timings_s (stageName s) t.1 }
        t.2

/-- The stage substitution performed by `recover`: every `TransformStage`
is replaced by the shared backup transform stage. -/
def swapStage (s : Stage) : Stage :=
  if s = .transform then .backupTransform else s

/-- Model of `ProcessingPipeline.recover`: increment `recovered`, record the error in
`last_error`, permanently swap every `TransformStage` for the backup stage,
and re-run the full stage sequence on the original input.  The updated
state is returned even when the re-run itself fails, because the Python
mutations have already happened by then. -/
def recover (p : PipeState) (data : Val) (e : PyErr) (c : Clock) :
    Except PyErr Val × PipeState × Clock :=
  let ns := p.stages.map swapStage
  let r := run_stages ns data
    { p.stats with recovered := p.stats.recovered + 1, last_error := errDesc e } c
  (r.1, { p with stages := ns, stats := r.2.1 }, r.2.2)

/-- Model of `PipelineStats.efficiency_pct`. -/
def efficiency_pct (st : PipelineStats) : ℚ :=
  let total := st.processed + st.failed
  if total = 0 then 100 else ((st.processed : ℚ) / (total : ℚ)) * 100

/-- The three adapter subclasses of `ProcessingPipeline`. -/
inductive AdapterKind where
  | json : AdapterKind
  | csv : AdapterKind
  | stream : AdapterKind
deriving DecidableEq, Repr

/-- Adapter state: its kind, the inherited pipeline state, and (for the
stream adapter) the bounded rolling window `deque(maxlen=50)`. -/
structure AdapterState where
  kind : AdapterKind
  pipe : PipeState
  window : List ℚ
deriving DecidableEq, Repr

/-- Fresh statistics record (dataclass defaults). -/
def initStats (pid : String) : PipelineStats :=
  { pipeline_id := pid, processed := 0, failed := 0, recovered := 0,
    total_time_s := 0, last_error := "", stage_timings_s := [] }

/-- The default three-stage topology installed by the constructor. -/
def defaultStages : List Stage := [.input, .transform, .output]

/-- Adapter construction (`JSONAdapter(pid)` etc.): default stages, zeroed
statistics, recovery enabled, empty rolling window. -/
def mkAdapter (k : AdapterKind) (pid : String) : AdapterState :=
  { kind := k,
    pipe := { pipeline_id := pid, stages := defaultStages,
              stats := initStats pid, recovery_enabled := true },
    window := [] }

/-- Increment `processed`. -/
def bumpProcessed (st : PipelineStats) : PipelineStats :=
  { st with processed := st.processed + 1 }

/-- Increment `failed`. -/
def bumpFailed (st : PipelineStats) : PipelineStats :=
  { st with failed := st.failed + 1 }

/-- The `JSONAdapter` pre-parsing: a string goes through `json.loads`, a dict
passes unchanged, anything else raises `ValueError`. -/
def jsonParseData : Val → Except PyErr Val
  | .vstr s => jsonLoads s
  | .vdict kvs => .ok (.vdict kvs)
  | _ => .error (.valueError "Invalid data format for JSONAdapter")

/-- The `JSONAdapter` result formatting: `result.get` raises `AttributeError`
on a non-dict; a `temp`-in-Celsius numeric reading is range-classified,
anything else gets the generic record summary. -/
def jsonFormat (result : Val) : Except PyErr String :=
  match result with
  | .vdict kvs =>
    let sensor := pyStr (dictGetD kvs "sensor" (.vstr "unknown"))
    let value := dictGetD kvs "value" .vnull
    let unit := pyStr (dictGetD kvs "unit" (.vstr ""))
    if sensor = "temp" && isNumericPy value && pyUpper unit = "C" then
      let x := pyFloat value
      let status := if 15 ≤ x ∧ x ≤ 30 then "Normal range" else "Out of range"
      .ok ("Processed temperature reading: " ++ formatFixed1 x ++ "°C (" ++ status ++ ")")
    else
      .ok ("Processed JSON record: sensor=" ++ sensor ++ ", value=" ++ pyStr value ++ unit)
  | _ =>
    .error (.attributeError
      (sqS ++ pyTypeName result ++ sqS ++ " object has no attribute " ++ sqS ++ "get" ++ sqS))

/-- The `CSVAdapter` line selection: `data[0] if data else ""` for a list, a
string passes unchanged, anything else raises `ValueError`.  Note that the
empty list is accepted and treated as the empty header line. -/
def csvLine : Val → Except PyErr Val
  | .vlist xs => .ok (xs.headD (.vstr ""))
  | .vstr s => .ok (.vstr s)
  | _ => .error (.valueError "Invalid data format for CSVAdapter")

/-- Numeric `temp` extraction of `StreamAdapter`: dict elements whose
`temp` field is an `int` or `float` but not a `bool`. -/
def extractTemps (items : List Val) : List ℚ :=
  items.filterMap (fun item =>
    match item with
    | .vdict kvs =>
      match dictGet kvs "temp" with
      | some (.vint n) => some ((n : ℚ))
      | some (.vfloat q) => some q
      | _ => none
    | _ => none)

/-- Append to the rolling window, `deque(maxlen=50)` eviction. -/
def dequePush (w : List ℚ) (v : ℚ) : List ℚ :=
  let w1 := w ++ [v]
  if w1.length > 50 then w1.drop (w1.length - 50) else w1

/-- The stream summary line: reading count and the arithmetic mean of just
the extracted batch; zero readings report a zero mean instead of failing. -/
def streamRender (temps : List ℚ) : String :=
  if temps.length = 0 then "Stream summary: 0 readings, avg: 0.0°C"
  else
    "Stream summary: " ++ toString temps.length ++ " readings, avg: " ++
      formatFixed1 (temps.sum / (temps.length : ℚ)) ++ "°C"

/-- The `try`-block body of each adapter's `process` (pre-parsing, staging,
formatting, success bookkeeping), returning the success string or the first
raised exception, together with the updated statistics, rolling window and
clock.  Mutations that precede a raise (notably stage timings) persist. -/
def adapterAttempt (a : AdapterState) (data : Val) (c : Clock) :
    Except PyErr String × PipelineStats × List ℚ × Clock :=
  match a.kind with
  | .json =>
    match jsonParseData data with
    | .error e => (.error e, a.pipe.stats, a.window, c)
    | .ok parsed =>
      let r := run_stages a.pipe.stages parsed a.pipe.stats c
      match r.1 with
      | .error e => (.error e, r.2.1, a.window, r.2.2)
      | .ok result =>
        match jsonFormat result with
        | .error e => (.error e, r.2.1, a.window, r.2.2)
        | .ok out => (.ok out, bumpProcessed r.2.1, a.window, r.2.2)
  | .csv =>
    match csvLine data with
    | .error e => (.error e, a.pipe.stats, a.window, c)
    | .ok line =>
      let r := run_stages a.pipe.stages line a.pipe.stats c
      match r.1 with
      | .error e => (.error e, r.2.1, a.window, r.2.2)
      | .ok result =>
        let headerV : Val :=
          match result with
          | .vdict kvs => dictGetD kvs "csv_header" (.vlist [])
          | _ => .vlist []
        match pyIter headerV with
        | .error e => (.error e, r.2.1, a.window, r.2.2)
        | .ok hs =>
          let headerNorm := hs.map (fun h => pyLower (pyStr h))
          (.ok "User activity logged: 1 actions processed",
           { bumpProcessed r.2.1 with
               stage_timings_s :=
                 timingsSet (bumpProcessed r.2.1).stage_timings_s "csv_columns"
                   ((headerNorm.length : ℚ)) },
           a.window, r.2.2)
  | .stream =>
    match data with
    | .vstr s =>
      let r := run_stages a.pipe.stages (.vstr s) a.pipe.stats c
      match r.1 with
      | .error e => (.error e, r.2.1, a.window, r.2.2)
      | .ok _ =>
        (.ok "Stream summary: 5 readings, avg: 22.1°C", bumpProcessed r.2.1, a.window, r.2.2)
    | .vlist xs =>
      let r := run_stages a.pipe.stages (.vlist xs) a.pipe.stats c
      match r.1 with
      | .error e => (.error e, r.2.1, a.window, r.2.2)
      | .ok cleaned =>
        match pyIter cleaned with
        | .error e => (.error e, r.2.1, a.window, r.2.2)
        | .ok items =>
          let temps := extractTemps items
          (.ok (streamRender temps), bumpProcessed r.2.1, temps.foldl dequePush a.window, r.2.2)
    | _ => (.error (.valueError "Invalid data format for StreamAdapter"), a.pipe.stats, a.window, c)

/-- The `Recovered ...` result format of each adapter. -/
def recPre : AdapterKind → String
  | .json => "Recovered JSON processing: "
  | .csv => "Recovered CSV processing: "
  | .stream => "Recovered stream processing: "

/-- The `... ERROR:` result format of each adapter. -/
def errPre : AdapterKind → String
  | .json => "JSONAdapter ERROR: "
  | .csv => "CSVAdapter ERROR: "
  | .stream => "StreamAdapter ERROR: "

/-- The `finally` clause of each adapter's `process`: add the elapsed time
of the whole call to `total_time_s`. -/
def addTime (v : Val) (a : AdapterState) (c : Clock) : Val × AdapterState × Clock :=
  let st := { a.pipe.stats with total_time_s := a.pipe.stats.total_time_s + (c.tick).1 }
  (v, { a with pipe := setStats a.pipe st }, (c.tick).2)

/-- The `except`/`finally` structure shared by the three adapters, applied
to the outcome of the `try` block: on failure increment `failed`, then (if
recovery is enabled) run `recover` once, returning a `Recovered` string and
incrementing `processed` when the re-run succeeds, or overwriting
`last_error` with the secondary error and returning the formatted error
string when it fails; nothing is ever re-raised. -/
def processCore (a : AdapterState) (data : Val) (res : Except PyErr String)
    (st1 : PipelineStats) (w1 : List ℚ) (c1 : Clock) : Val × AdapterState × Clock :=
  match res with
  | .ok out => addTime (.vstr out) { a with pipe := setStats a.pipe st1, window := w1 } c1
  | .error e =>
    if a.pipe.recovery_enabled then
      match recover (setStats a.pipe (bumpFailed st1)) data e c1 with
      | (.ok rv, p3, c2) =>
        addTime (.vstr (recPre a.kind ++ pyStr rv))
          { a with pipe := setStats p3 (bumpProcessed p3.stats), window := w1 } c2
      | (.error e2, p3, c2) =>
        addTime (.vstr (errPre a.kind ++ errDesc e))
          { a with pipe := setStats p3 { p3.stats with last_error := errDesc e2 },
                   window := w1 } c2
    else
      addTime (.vstr (errPre a.kind ++ errDesc e))
        { a with pipe := setStats a.pipe (bumpFailed st1), window := w1 } c1

/-- An adapter's `process` method: run the `try` block, then the shared
`except`/`finally` handling. -/
def AdapterState.process (a : AdapterState) (data : Val) (c : Clock) :
    Val × AdapterState × Clock :=
  processCore a data (adapterAttempt a data c).1 (adapterAttempt a data c).2.1
    (adapterAttempt a data c).2.2.1 (adapterAttempt a data c).2.2.2

/-- The recovery outcome reached by a failing `process` call: `none` when
the `try` block succeeded (no recovery), otherwise the result of the single
`recover` invocation performed after `failed` was incremented. -/
def recoveryOutcome (a : AdapterState) (data : Val) (c : Clock) :
    Option (Except PyErr Val) :=
  match (adapterAttempt a data c).1 with
  | .ok _ => none
  | .error e =>
    some (recover (setStats a.pipe (bumpFailed (adapterAttempt a data c).2.1)) data e
      (adapterAttempt a data c).2.2.2).1

/-- Model of `NexusManager`: capacity hint and the name-to-pipeline registry (an
insertion-ordered mapping with unique keys). -/
structure NexusManager where
  capacity : ℤ
  pipelines : List (String × AdapterState)
deriving DecidableEq, Repr

/-- Registry lookup. -/
def assocGet : List (String × AdapterState) → String → Option AdapterState
  | [], _ => none
  | kv :: rest, k => if kv.1 = k then some kv.2 else assocGet rest k

/-- Registry assignment (replace in place or append). -/
def assocSet : List (String × AdapterState) → String → AdapterState →
    List (String × AdapterState)
  | [], k, v => [(k, v)]
  | kv :: rest, k, v => if kv.1 = k then (k, v) :: rest else kv :: assocSet rest k v

/-- Model of `NexusManager.add_pipeline`. -/
def NexusManager.add_pipeline (m : NexusManager) (name : String) (a : AdapterState) :
    NexusManager :=
  { m with pipelines := assocSet m.pipelines name a }

/-- The `KeyError` message raised for an unregistered pipeline name. -/
def pnfMsg (name : String) : String :=
  "Pipeline " ++ sqS ++ name ++ sqS ++ " not found"

/-- Model of `NexusManager.process`: an unregistered name raises `KeyError`, caught
by the manager's own handler and rendered as an error string; otherwise the
call delegates to the named adapter (whose `process` never raises, see the
totality theorems below). -/
def NexusManager.process (m : NexusManager) (name : String) (data : Val) (c : Clock) :
    Val × NexusManager × Clock :=
  match assocGet m.pipelines name with
  | none => (.vstr ("NexusManager ERROR: " ++ errDesc (.keyError (pnfMsg name))), m, c)
  | some a =>
    ((a.process data c).1,
     { m with pipelines := assocSet m.pipelines name (a.process data c).2.1 },
     (a.process data c).2.2)

/-- Model of `NexusManager.chain`: fold `process` over the name list, feeding each
result to the next call; the empty list returns the input unchanged. -/
def NexusManager.chain : NexusManager → List String → Val → Clock →
    Val × NexusManager × Clock
  | m, [], data, c => (data, m, c)
  | m, n :: rest, data, c =>
    NexusManager.chain (m.process n data c).2.1 rest (m.process n data c).1
      (m.process n data c).2.2

/-- One step of the `chain` fold. -/
def chainStep (acc : Val × NexusManager × Clock) (n : String) :
    Val × NexusManager × Clock :=
  acc.2.1.process n acc.1 acc.2.2

/-- Model of `NexusManager.performance_report`: an unguarded registry subscript, so
an unregistered name raises `KeyError(name)` to the caller (modelled by the
`Except` error); otherwise the efficiency/time report string. -/
def NexusManager.performance_report (m : NexusManager) (name : String) :
    Except PyErr String :=
  match assocGet m.pipelines name with
  | none => .error (.keyError name)
  | some a =>
    .ok ("Performance: " ++ formatFixed0 (efficiency_pct a.pipe.stats) ++
      "% efficiency, " ++ formatFixed1 a.pipe.stats.total_time_s ++
      "s total processing time")

/-- Whether a value is a Python `list`. -/
def Val.isList : Val → Bool
  | .vlist _ => true
  | _ => false

/-- Every key of a dict is a Python string. -/
def AllStrKeys (d : List (Val × Val)) : Prop :=
  ∀ kv ∈ d, ∃ t, kv.1 = Val.vstr t

/-- Statistics monotonicity relation between two snapshots of one
pipeline's `PipelineStats`: `processed + failed` never decreases,
`recovered` never decreases, the stage-timing dict never loses a key, and
every timing entry other than the tabular adapter's `csv_columns`
bookkeeping entry never decreases in value. -/
def StatsMono (s1 s2 : PipelineStats) : Prop :=
  s1.processed + s1.failed ≤ s2.processed + s2.failed ∧
  s1.recovered ≤ s2.recovered ∧
  (∀ (k : String) (q : ℚ), timingsGet s1.stage_timings_s k = some q →
    ∃ q2, timingsGet s2.stage_timings_s k = some q2) ∧
  (∀ (k : String) (q : ℚ), k ≠ "csv_columns" →
    timingsGet s1.stage_timings_s k = some q →
    ∃ q2, timingsGet s2.stage_timings_s k = some q2 ∧ q ≤ q2)

/-! Helper lemmas shared by the claim theorems. -/

theorem dictGet_dictSet_self (d : List (Val × Val)) (s : String) (v : Val) :
    dictGet (dictSet d s v) s = some v := by
  induction d with
  | nil => simp [dictSet, dictGet, keyIs]
  | cons kv rest ih =>
    by_cases h : keyIs kv.1 s = true
    · rw [dictSet, if_pos h]
      simp [dictGet, keyIs]
    · rw [dictSet, if_neg h]
      rw [dictGet, if_neg h]
      exact ih

theorem allStrKeys_dictSet (d : List (Val × Val)) (s : String) (v : Val)
    (h : AllStrKeys d) : AllStrKeys (dictSet d s v) := by
  induction d with
  | nil =>
    intro kv hkv
    simp [dictSet] at hkv
    exact ⟨s, by simp [hkv]⟩
  | cons kv0 rest ih =>
    intro kv hkv
    by_cases hk : keyIs kv0.1 s = true
    · simp [dictSet, hk] at hkv
      rcases hkv with h1 | h2
      · exact ⟨s, by simp [h1]⟩
      · exact h kv (by simp [h2])
    · simp [dictSet, hk] at hkv
      rcases hkv with h1 | h2
      · exact h kv (by simp [h1])
      · exact ih (fun x hx => h x (by simp [hx])) kv h2

theorem allStrKeys_coerceKeys (kvs : List (Val × Val)) :
    AllStrKeys (coerceKeys kvs) := by
  have main : ∀ (l acc : List (Val × Val)), AllStrKeys acc →
      AllStrKeys (l.foldl (fun acc kv => dictSet acc (pyStr kv.1) kv.2) acc) := by
    intro l
    induction l with
    | nil => intro acc h; exact h
    | cons kv rest ih =>
      intro acc h
      exact ih (dictSet acc (pyStr kv.1) kv.2) (allStrKeys_dictSet acc (pyStr kv.1) kv.2 h)
  exact main kvs [] (fun kv h => absurd h (List.not_mem_nil kv))

/-- Claim C5 (corrected), counterexample to the claim as stated: on the
empty record, `TransformStage.process` installs `_meta` with source
`"nexus"`, not `"pipeline"` as the claim asserts. -/
theorem c5_transform_meta_counterexample :
    stageProcess .transform (.vdict []) =
      .ok (.vdict [(.vstr "_meta",
        .vdict [(.vstr "validated", .vbool true), (.vstr "source", .vstr "nexus")])]) ∧
    "nexus" ≠ "pipeline" :=
  ⟨rfl, by decide⟩

/-- Claim C5 (corrected), amended: for every structured-record (dict)
input, `TransformStage.process` returns a new record whose keys are all
coerced to text and whose reserved key `_meta` is set to
`validated: true, source: "nexus"`. -/
theorem c5_transform_record_amended (kvs : List (Val × Val)) :
    ∃ res, stageProcess .transform (.vdict kvs) = .ok (.vdict res) ∧
      AllStrKeys res ∧ dictGet res "_meta" = some metaNexus := by
  refine ⟨dictSet (coerceKeys kvs) "_meta" metaNexus, rfl, ?_, ?_⟩
  · exact allStrKeys_dictSet (coerceKeys kvs) "_meta" metaNexus (allStrKeys_coerceKeys kvs)
  · exact dictGet_dictSet_self (coerceKeys kvs) "_meta" metaNexus

/-- Claim C6 (confirmed): chaining two pipelines equals nested `process`
calls — including when the first call produces an error string, since the
fold passes every intermediate value (error strings included) to the next
pipeline as ordinary input with no special casing; and `chain` is exactly
the left-to-right fold of `process` over the name list. -/
theorem c6_chain_composes (m : NexusManager) (na nb : String) (x : Val)
    (c : Clock) :
    (m.chain [na, nb] x c =
      (m.process na x c).2.1.process nb (m.process na x c).1 (m.process na x c).2.2) ∧
    (∀ names : List String, m.chain names x c = names.foldl chainStep (x, m, c)) := by
  constructor
  · rfl
  · intro names
    induction names generalizing m x c with
    | nil => rfl
    | cons n rest ih =>
      show NexusManager.chain (m.process n x c).2.1 rest (m.process n x c).1
        (m.process n x c).2.2 = _
      rw [ih]
      rfl

/-- Claim C9 (confirmed): `Manager.process` on an unregistered name returns
the formatted `NexusManager ERROR` string rendering the `KeyError` (the
`PipelineNotFound` condition) and returns the manager completely unchanged,
so no registered pipeline's statistics move. -/
theorem c9_missing_pipeline (m : NexusManager) (name : String) (data : Val)
    (c : Clock) (h : assocGet m.pipelines name = none) :
    m.process name data c =
      (.vstr ("NexusManager ERROR: " ++ errDesc (.keyError (pnfMsg name))), m, c) := by
  unfold NexusManager.process
  rw [h]

/-- Claim C9 witness: a concrete manager holding a JSON pipeline, asked for
the name `missing`. -/
theorem c9_missing_pipeline_witness :
    (NexusManager.mk 1000 [("json", mkAdapter .json "PIPE_JSON")]).process
        "missing" (.vint 7) ⟨[]⟩ =
      (.vstr ("NexusManager ERROR: " ++ errDesc (.keyError (pnfMsg "missing"))),
       NexusManager.mk 1000 [("json", mkAdapter .json "PIPE_JSON")], ⟨[]⟩) :=
  c9_missing_pipeline (NexusManager.mk 1000 [("json", mkAdapter .json "PIPE_JSON")])
    "missing" (.vint 7) ⟨[]⟩ rfl

/-- Claim C10 (confirmed): `performance_report` performs an unguarded
registry subscript: every unregistered name raises `KeyError(name)` to the
caller (the model's `Except.error`), while a registered name returns the
report string — so unlike `process` and `chain`, which always return plain
values, this entry point can throw. -/
theorem c10_report_unguarded (m : NexusManager) (name : String) :
    (assocGet m.pipelines name = none →
      m.performance_report name = .error (.keyError name)) ∧
    (∀ a, assocGet m.pipelines name = some a →
      m.performance_report name =
        .ok ("Performance: " ++ formatFixed0 (efficiency_pct a.pipe.stats) ++
          "% efficiency, " ++ formatFixed1 a.pipe.stats.total_time_s ++
          "s total processing time")) := by
  constructor
  · intro h
    unfold NexusManager.performance_report
    rw [h]
  · intro a h
    unfold NexusManager.performance_report
    rw [h]

/-- Claim C10 witness: the empty registry raises `KeyError` for `"x"`, and
a registry holding a fresh JSON pipeline reports 100% efficiency. -/
theorem c10_report_unguarded_witness :
    (NexusManager.mk 1000 []).performance_report "x" = .error (.keyError "x") ∧
    (NexusManager.mk 1000 [("json", mkAdapter .json "J")]).performance_report "json" =
      .ok ("Performance: " ++ formatFixed0 (efficiency_pct (mkAdapter .json "J").pipe.stats) ++
        "% efficiency, " ++ formatFixed1 (mkAdapter .json "J").pipe.stats.total_time_s ++
        "s total processing time") :=
  ⟨(c10_report_unguarded (NexusManager.mk 1000 []) "x").1 rfl,
   (c10_report_unguarded (NexusManager.mk 1000 [("json", mkAdapter .json "J")]) "json").2
     (mkAdapter .json "J") rfl⟩

theorem processCore_fst_isStr (a : AdapterState) (d : Val) (res : Except PyErr String)
    (st1 : PipelineStats) (w1 : List ℚ) (c1 : Clock) :
    ((processCore a d res st1 w1 c1).1).isStr = true := by
  unfold processCore
  split
  · rfl
  · split
    · split <;> rfl
    · rfl

theorem adapter_process_isStr (a : AdapterState) (d : Val) (c : Clock) :
    ((a.process d c).1).isStr = true :=
  processCore_fst_isStr a d (adapterAttempt a d c).1 (adapterAttempt a d c).2.1
    (adapterAttempt a d c).2.2.1 (adapterAttempt a d c).2.2.2

theorem manager_process_isStr (m : NexusManager) (name : String) (d : Val) (c : Clock) :
    ((m.process name d c).1).isStr = true := by
  unfold NexusManager.process
  cases h : assocGet m.pipelines name with
  | none => rfl
  | some a => exact adapter_process_isStr a d c

theorem manager_chain_isStr (names : List String) (m : NexusManager) (d : Val)
    (c : Clock) (h : names ≠ []) : ((m.chain names d c).1).isStr = true := by
  induction names generalizing m d c with
  | nil => exact absurd rfl h
  | cons n rest ih =>
    show ((NexusManager.chain (m.process n d c).2.1 rest (m.process n d c).1
      (m.process n d c).2.2).1).isStr = true
    cases rest with
    | nil => exact manager_process_isStr m n d c
    | cons n2 r2 => exact ih _ _ _ (by simp)

/-- Claim C1 (corrected), counterexample to the claim as stated: on a
manager with a registered adapter, `chain` invoked with the empty name list
returns the input value verbatim — here the integer 5, not a string — so
"every `chain` call returns a string" fails as universally stated. -/
theorem c1_chain_empty_counterexample :
    ((NexusManager.mk 1000 [("json", mkAdapter .json "PIPE_JSON")]).chain []
        (.vint 5) ⟨[]⟩).1 = .vint 5 ∧
    (Val.vint 5).isStr = false :=
  ⟨rfl, rfl⟩

/-- Claim C1 (corrected), amended: `Manager.process` always returns a
string and never raises (all stage- and adapter-level failures are caught
at the adapter boundary, manager-level failures are rendered as error
strings), and `Manager.chain` returns a string for every non-empty name
list; for the empty name list it returns the input unchanged. -/
theorem c1_total_strings_amended (m : NexusManager) (name : String) (d : Val)
    (c : Clock) :
    ((m.process name d c).1).isStr = true ∧
    (∀ names : List String, names ≠ [] → ((m.chain names d c).1).isStr = true) ∧
    m.chain [] d c = (d, m, c) :=
  ⟨manager_process_isStr m name d c,
   fun names h => manager_chain_isStr names m d c h,
   rfl⟩

/-- Claim C1 witness: a concrete one-adapter manager processing and
chaining an integer input (which the JSON adapter cannot parse) still
returns strings. -/
theorem c1_total_strings_amended_witness :
    (((NexusManager.mk 1000 [("json", mkAdapter .json "PIPE_JSON")]).process "json"
        (.vint 7) ⟨[]⟩).1).isStr = true ∧
    (((NexusManager.mk 1000 [("json", mkAdapter .json "PIPE_JSON")]).chain
        ["json", "missing"] (.vint 7) ⟨[]⟩).1).isStr = true :=
  ⟨(c1_total_strings_amended (NexusManager.mk 1000 [("json", mkAdapter .json "PIPE_JSON")])
      "json" (.vint 7) ⟨[]⟩).1,
   (c1_total_strings_amended (NexusManager.mk 1000 [("json", mkAdapter .json "PIPE_JSON")])
      "x" (.vint 7) ⟨[]⟩).2.1 ["json", "missing"] (by simp)⟩

/-- Claim C7 (corrected), counterexample to the claim as stated: the
tabular-header adapter accepts the empty list instead of failing with
`InvalidFormat` — the call succeeds with the fixed activity summary,
`processed` is incremented and `failed` stays 0. -/
theorem c7_empty_list_counterexample :
    ((mkAdapter .csv "PIPE_CSV").process (.vlist []) ⟨[]⟩).1 =
      .vstr "User activity logged: 1 actions processed" ∧
    ((mkAdapter .csv "PIPE_CSV").process (.vlist []) ⟨[]⟩).2.1.pipe.stats.processed = 1 ∧
    ((mkAdapter .csv "PIPE_CSV").process (.vlist []) ⟨[]⟩).2.1.pipe.stats.failed = 0 :=
  ⟨rfl, rfl, rfl⟩

/-- Claim C7 (corrected), amended: the tabular-header adapter's
pre-parsing accepts text unchanged and accepts every list, using only the
first element and treating the empty list as the empty header line; only a
value that is neither text nor a list raises `ValueError` (the
`InvalidFormat` condition), and that failure enters the adapter's
error-string path — the full call still returns a string, never raising. -/
theorem c7_csv_inputs_amended (a : AdapterState) (d : Val) (c : Clock)
    (s : String) (v : Val) (rest : List Val) (hk : a.kind = .csv)
    (hshape : d.isStr = false ∧ d.isList = false) :
    csvLine (.vstr s) = .ok (.vstr s) ∧
    csvLine (.vlist (v :: rest)) = .ok v ∧
    csvLine (.vlist []) = .ok (.vstr "") ∧
    (adapterAttempt a d c).1 = .error (.valueError "Invalid data format for CSVAdapter") ∧
    ((a.process d c).1).isStr = true := by
  refine ⟨rfl, rfl, rfl, ?_, adapter_process_isStr a d c⟩
  unfold adapterAttempt
  rw [hk]
  cases d with
  | vstr t => exact absurd hshape.1 (by simp [Val.isStr])
  | vlist xs => exact absurd hshape.2 (by simp [Val.isList])
  | vnull => rfl
  | vbool b => rfl
  | vint n => rfl
  | vfloat q => rfl
  | vdict kvs => rfl

/-- Claim C7 witness: concrete instances — the demo header line, a list
with a first element, the empty list, and the integer 3 as the rejected
shape. -/
theorem c7_csv_inputs_amended_witness :
    csvLine (.vstr "user,action,timestamp") = .ok (.vstr "user,action,timestamp") ∧
    csvLine (.vlist [.vstr "a,b", .vstr "c,d"]) = .ok (.vstr "a,b") ∧
    csvLine (.vlist []) = .ok (.vstr "") ∧
    (adapterAttempt (mkAdapter .csv "PIPE_CSV") (.vint 3) ⟨[]⟩).1 =
      .error (.valueError "Invalid data format for CSVAdapter") ∧
    (((mkAdapter .csv "PIPE_CSV").process (.vint 3) ⟨[]⟩).1).isStr = true :=
  c7_csv_inputs_amended (mkAdapter .csv "PIPE_CSV") (.vint 3) ⟨[]⟩
    "user,action,timestamp" (.vstr "a,b") [.vstr "c,d"] rfl ⟨rfl, rfl⟩

theorem run_stages_counters (ss : List Stage) (v : Val) (st : PipelineStats)
    (c : Clock) :
    (run_stages ss v st c).2.1.processed = st.processed ∧
    (run_stages ss v st c).2.1.failed = st.failed ∧
    (run_stages ss v st c).2.1.recovered = st.recovered ∧
    (run_stages ss v st c).2.1.last_error = st.last_error := by
  induction ss generalizing v st c with
  | nil => exact ⟨rfl, rfl, rfl, rfl⟩
  | cons s rest ih =>
    simp only [run_stages]
    cases h : stageProcess s v with
    | error e => simp [h]
    | ok v1 =>
      simp only [h]
      exact ih v1 _ _

theorem recover_stats (p : PipeState) (d : Val) (e : PyErr) (c : Clock) :
    (recover p d e c).2.1.stats.processed = p.stats.processed ∧
    (recover p d e c).2.1.stats.failed = p.stats.failed ∧
    (recover p d e c).2.1.stats.recovered = p.stats.recovered + 1 ∧
    (recover p d e c).2.1.stages = p.stages.map swapStage := by
  unfold recover
  have h := run_stages_counters (p.stages.map swapStage) d
    { p.stats with recovered := p.stats.recovered + 1, last_error := errDesc e } c
  exact ⟨h.1, h.2.1, h.2.2.1, rfl⟩

theorem adapterAttempt_error_stats (a : AdapterState) (d : Val) (c : Clock)
    (e : PyErr) (h : (adapterAttempt a d c).1 = .error e) :
    (adapterAttempt a d c).2.1.processed = a.pipe.stats.processed ∧
    (adapterAttempt a d c).2.1.failed = a.pipe.stats.failed ∧
    (adapterAttempt a d c).2.1.recovered = a.pipe.stats.recovered := by
  rcases a with ⟨k, p, w⟩
  cases k with
  | json =>
    unfold adapterAttempt at h ⊢
    cases hj : jsonParseData d with
    | error e1 => simp [hj]
    | ok parsed =>
      simp only [hj] at h ⊢
      have hc := run_stages_counters p.stages parsed p.stats c
      cases hr : (run_stages p.stages parsed p.stats c).1 with
      | error e1 => simp only [hr]; exact ⟨hc.1, hc.2.1, hc.2.2.1⟩
      | ok result =>
        simp only [hr] at h ⊢
        cases hf : jsonFormat result with
        | error e1 => simp only [hf]; exact ⟨hc.1, hc.2.1, hc.2.2.1⟩
        | ok out => simp [hf] at h
  | csv =>
    unfold adapterAttempt at h ⊢
    cases hj : csvLine d with
    | error e1 => simp [hj]
    | ok line =>
      simp only [hj] at h ⊢
      have hc := run_stages_counters p.stages line p.stats c
      cases hr : (run_stages p.stages line p.stats c).1 with
      | error e1 => simp only [hr]; exact ⟨hc.1, hc.2.1, hc.2.2.1⟩
      | ok result =>
        simp only [hr] at h ⊢
        set headerV := (match result with
            | Val.vdict kvs => dictGetD kvs "csv_header" (Val.vlist [])
            | _ => Val.vlist []) with hv
        cases hi : pyIter headerV with
        | error e1 => simp only [hi]; exact ⟨hc.1, hc.2.1, hc.2.2.1⟩
        | ok hs => simp [hi] at h
  | stream =>
    unfold adapterAttempt at h ⊢
    cases d with
    | vstr s =>
      have hc := run_stages_counters p.stages (.vstr s) p.stats c
      cases hr : (run_stages p.stages (.vstr s) p.stats c).1 with
      | error e1 => simp only [hr]; exact ⟨hc.1, hc.2.1, hc.2.2.1⟩
      | ok result => simp [hr] at h
    | vlist xs =>
      have hc := run_stages_counters p.stages (.vlist xs) p.stats c
      cases hr : (run_stages p.stages (.vlist xs) p.stats c).1 with
      | error e1 => simp only [hr]; exact ⟨hc.1, hc.2.1, hc.2.2.1⟩
      | ok cleaned =>
        simp only [hr] at h ⊢
        cases hi : pyIter cleaned with
        | error e1 => simp only [hi]; exact ⟨hc.1, hc.2.1, hc.2.2.1⟩
        | ok items => simp [hi] at h
    | vnull => exact ⟨rfl, rfl, rfl⟩
    | vbool b => exact ⟨rfl, rfl, rfl⟩
    | vint n => exact ⟨rfl, rfl, rfl⟩
    | vfloat q => exact ⟨rfl, rfl, rfl⟩
    | vdict kvs => exact ⟨rfl, rfl, rfl⟩

/-- Claim C2 (confirmed): when the `try` block of an adapter's `process`
raises (in particular whenever a stage raises), `failed` is incremented by
exactly 1 — this happens before recovery is attempted, which is why the
recovery re-run executes on statistics whose `failed` is already bumped; if
the single recovery re-run succeeds, `processed` and `recovered` each also
increment by exactly 1; if the re-run itself fails, `last_error` is
overwritten with the secondary error's description and the call returns the
formatted adapter error string instead of raising. -/
theorem c2_failure_recovery_stats (a : AdapterState) (d : Val) (c : Clock)
    (e : PyErr) (hfail : (adapterAttempt a d c).1 = .error e)
    (hen : a.pipe.recovery_enabled = true) :
    ((a.process d c).2.1.pipe.stats.failed = a.pipe.stats.failed + 1) ∧
    (∀ v, recoveryOutcome a d c = some (.ok v) →
      (a.process d c).2.1.pipe.stats.processed = a.pipe.stats.processed + 1 ∧
      (a.process d c).2.1.pipe.stats.recovered = a.pipe.stats.recovered + 1) ∧
    (∀ e2, recoveryOutcome a d c = some (.error e2) →
      (a.process d c).2.1.pipe.stats.last_error = errDesc e2 ∧
      (a.process d c).1 = .vstr (errPre a.kind ++ errDesc e)) := by
  have hstats := adapterAttempt_error_stats a d c e hfail
  have hrec := recover_stats (setStats a.pipe (bumpFailed (adapterAttempt a d c).2.1))
    d e (adapterAttempt a d c).2.2.2
  unfold AdapterState.process recoveryOutcome
  rw [hfail]
  unfold processCore
  rw [hen]
  simp only [if_true]
  rcases hr : recover (setStats a.pipe (bumpFailed (adapterAttempt a d c).2.1)) d e
      (adapterAttempt a d c).2.2.2 with ⟨res3, p3, c2⟩
  rw [hr] at hrec
  cases res3 with
  | ok rv =>
    refine ⟨?_, ?_, ?_⟩
    · simp only [addTime, setStats, bumpProcessed, bumpFailed]
      rw [hrec.2.1]
      simp [setStats, bumpFailed, hstats.2.1]
    · intro v hv
      constructor
      · simp only [addTime, setStats, bumpProcessed, bumpFailed]
        rw [hrec.1]
        simp [setStats, bumpFailed, hstats.1]
      · simp only [addTime, setStats, bumpProcessed, bumpFailed]
        rw [hrec.2.2.1]
        simp [setStats, bumpFailed, hstats.2.2]
    · intro e2 hv
      simp at hv
  | error e2 =>
    refine ⟨?_, ?_, ?_⟩
    · simp only [addTime, setStats, bumpFailed]
      rw [hrec.2.1]
      simp [setStats, bumpFailed, hstats.2.1]
    · intro v hv
      simp at hv
    · intro e2h hv
      simp only [Option.some.injEq, Except.error.injEq] at hv
      subst hv
      exact ⟨rfl, rfl⟩

theorem transform_not_mem_swap (l : List Stage) :
    Stage.transform ∉ l.map swapStage := by
  intro hm
  rcases List.mem_map.mp hm with ⟨s, hs, heq⟩
  unfold swapStage at heq
  by_cases h : s = Stage.transform
  · rw [if_pos h] at heq
    exact absurd heq (by decide)
  · rw [if_neg h] at heq
    exact h heq

theorem processCore_no_transform (a : AdapterState) (d : Val)
    (res : Except PyErr String) (st1 : PipelineStats) (w1 : List ℚ) (c1 : Clock)
    (h : Stage.transform ∉ a.pipe.stages) :
    Stage.transform ∉ (processCore a d res st1 w1 c1).2.1.pipe.stages := by
  unfold processCore
  split
  · simpa [addTime, setStats] using h
  · rename_i e
    split
    · split
      · next rv p3 c2 heq =>
        have h3 := (recover_stats (setStats a.pipe (bumpFailed st1)) d e c1).2.2.2
        rw [heq] at h3
        simp only [addTime, setStats]
        rw [h3]
        exact transform_not_mem_swap _
      · next e2 p3 c2 heq =>
        have h3 := (recover_stats (setStats a.pipe (bumpFailed st1)) d e c1).2.2.2
        rw [heq] at h3
        simp only [addTime, setStats]
        rw [h3]
        exact transform_not_mem_swap _
    · simpa [addTime, setStats] using h

/-- Claim C3 (confirmed): `recover` replaces every `TransformStage` in the
stage sequence by the shared backup transform stage, position by position,
leaving every other stage unchanged in place; afterwards no
`TransformStage` remains; the result is the re-run of the full swapped
sequence on the original, unmodified input; and the swap is permanent — any
later `process` call on a pipeline whose sequence holds no `TransformStage`
leaves it with no `TransformStage` (recovery can only swap further
occurrences away, never restore one). -/
theorem c3_recover_swap (p : PipeState) (d : Val) (e : PyErr) (c : Clock) :
    ((recover p d e c).2.1.stages = p.stages.map swapStage) ∧
    (∀ (i : ℕ) (s : Stage), p.stages[i]? = some s →
      (recover p d e c).2.1.stages[i]? =
        some (if s = Stage.transform then Stage.backupTransform else s)) ∧
    (Stage.transform ∉ (recover p d e c).2.1.stages) ∧
    ((recover p d e c).1 = (run_stages (p.stages.map swapStage) d
      { p.stats with recovered := p.stats.recovered + 1,
                     last_error := errDesc e } c).1) ∧
    (∀ (a : AdapterState) (d2 : Val) (c2 : Clock),
      Stage.transform ∉ a.pipe.stages →
      Stage.transform ∉ ((a.process d2 c2).2.1.pipe.stages)) := by
  refine ⟨rfl, ?_, transform_not_mem_swap p.stages, rfl, ?_⟩
  · intro i s hi
    show (p.stages.map swapStage)[i]? = _
    rw [List.getElem?_map, hi]
    rfl
  · intro a d2 c2 h
    exact processCore_no_transform a d2 _ _ _ _ h

/-- Claim C3 witness: recovering the default three-stage pipeline yields
`[InputStage, BackupTransformStage, OutputStage]`, swaps position 1 only,
and a subsequent `process` call on the swapped CSV pipeline leaves the
sequence transform-free. -/
theorem c3_recover_swap_witness :
    ((recover ⟨"P", defaultStages, initStats "P", true⟩ (.vstr "x")
        (.valueError "boom") ⟨[]⟩).2.1.stages =
      [Stage.input, Stage.backupTransform, Stage.output]) ∧
    ((recover ⟨"P", defaultStages, initStats "P", true⟩ (.vstr "x")
        (.valueError "boom") ⟨[]⟩).2.1.stages[1]? = some Stage.backupTransform) ∧
    (Stage.transform ∉ ((AdapterState.mk .csv
        ⟨"P", [Stage.input, Stage.backupTransform, Stage.output], initStats "P", true⟩
        []).process (.vstr "a,b") ⟨[]⟩).2.1.pipe.stages) := by
  have h := c3_recover_swap ⟨"P", defaultStages, initStats "P", true⟩ (.vstr "x")
    (.valueError "boom") ⟨[]⟩
  refine ⟨by rw [h.1]; decide, ?_, ?_⟩
  · have h2 := h.2.1 1 Stage.transform (by decide)
    simpa using h2
  · exact h.2.2.2.2 (AdapterState.mk .csv
      ⟨"P", [Stage.input, Stage.backupTransform, Stage.output], initStats "P", true⟩ [])
      (.vstr "a,b") ⟨[]⟩ (by decide)

/-- Claim C2 witness: the JSON adapter fed the unparseable text `x` — the
`try` block raises `JSONDecodeError`, recovery re-runs the swapped stages on
the original text and succeeds by wrapping it, so `failed`, `processed` and
`recovered` each move from 0 to 1. -/
theorem c2_failure_recovery_stats_witness :
    ((mkAdapter .json "PIPE_JSON").process (.vstr "x") ⟨[]⟩).2.1.pipe.stats.failed =
      (mkAdapter .json "PIPE_JSON").pipe.stats.failed + 1 ∧
    ((mkAdapter .json "PIPE_JSON").process (.vstr "x") ⟨[]⟩).2.1.pipe.stats.processed =
      (mkAdapter .json "PIPE_JSON").pipe.stats.processed + 1 ∧
    ((mkAdapter .json "PIPE_JSON").process (.vstr "x") ⟨[]⟩).2.1.pipe.stats.recovered =
      (mkAdapter .json "PIPE_JSON").pipe.stats.recovered + 1 := by
  have h := c2_failure_recovery_stats (mkAdapter .json "PIPE_JSON") (.vstr "x") ⟨[]⟩
    (.jsonDecodeError "Expecting value") (by with_unfolding_all rfl) rfl
  have h2 := h.2.1 (.vdict [(.vstr "raw", .vstr "x"), (.vstr "_meta", metaBackup)])
    (by with_unfolding_all rfl)
  exact ⟨h.1, h2.1, h2.2⟩

theorem run_stages_default_list (xs : List Val) (st : PipelineStats) (c : Clock) :
    (run_stages defaultStages (.vlist xs) st c).1 = .ok (.vlist xs) := rfl

/-- Claim C8 (confirmed): for every list input the event-stream adapter
reports the count and arithmetic mean of exactly the numeric `temp` fields
extracted from that batch — the rolling window plays no part (the window
state `a.window` is universally quantified and absent from the result);
boolean-typed `temp` values are excluded from extraction; an empty
extraction reports 0 readings and a 0.0 mean; and on the spec's concrete
examples the reported strings carry mean 22.0, count 1 with mean 20.0, and
the zero summary. -/
theorem c8_stream_batch_mean (a : AdapterState) (xs : List Val) (c : Clock)
    (kvs : List (Val × Val)) (b : Bool) (items : List Val)
    (hk : a.kind = .stream) (hs : a.pipe.stages = defaultStages)
    (hb : dictGet kvs "temp" = some (.vbool b)) :
    ((a.process (.vlist xs) c).1 = .vstr (streamRender (extractTemps xs))) ∧
    (extractTemps (.vdict kvs :: items) = extractTemps items) ∧
    (streamRender [] = "Stream summary: 0 readings, avg: 0.0°C") ∧
    (((mkAdapter .stream "S").process
        (.vlist [.vdict [(.vstr "temp", .vfloat 20)], .vdict [(.vstr "temp", .vfloat 24)]])
        ⟨[]⟩).1 = .vstr "Stream summary: 2 readings, avg: 22.0°C") ∧
    (((mkAdapter .stream "S").process
        (.vlist [.vdict [(.vstr "temp", .vfloat 20)], .vdict [(.vstr "humidity", .vint 50)]])
        ⟨[]⟩).1 = .vstr "Stream summary: 1 readings, avg: 20.0°C") ∧
    (((mkAdapter .stream "S").process (.vlist [.vdict [(.vstr "x", .vint 50)]])
        ⟨[]⟩).1 = .vstr "Stream summary: 0 readings, avg: 0.0°C") := by
  rcases a with ⟨k, p, w⟩
  simp only at hk hs
  subst hk
  have hat : (adapterAttempt ⟨.stream, p, w⟩ (.vlist xs) c).1 =
      .ok (streamRender (extractTemps xs)) := by
    unfold adapterAttempt
    simp only [hs, run_stages_default_list, pyIter]
  refine ⟨?_, ?_, rfl, ?_, ?_, ?_⟩
  · show (processCore _ _ (adapterAttempt ⟨.stream, p, w⟩ (.vlist xs) c).1 _ _ _).1 = _
    rw [hat]
    rfl
  · simp [extractTemps, hb]
  · with_unfolding_all rfl
  · with_unfolding_all rfl
  · with_unfolding_all rfl

/-- Claim C8 witness: the mixed batch example instantiated — the reported
string is the rendering of the extracted batch, and a boolean `temp` entry
contributes nothing to extraction. -/
theorem c8_stream_batch_mean_witness :
    (((mkAdapter .stream "S").process
        (.vlist [.vdict [(.vstr "temp", .vfloat 20)], .vdict [(.vstr "humidity", .vint 50)]])
        ⟨[]⟩).1 =
      .vstr (streamRender (extractTemps
        [.vdict [(.vstr "temp", .vfloat 20)], .vdict [(.vstr "humidity", .vint 50)]]))) ∧
    extractTemps [.vdict [(.vstr "temp", .vbool true)]] = extractTemps [] := by
  have h := c8_stream_batch_mean (mkAdapter .stream "S")
    [.vdict [(.vstr "temp", .vfloat 20)], .vdict [(.vstr "humidity", .vint 50)]]
    ⟨[]⟩ [(.vstr "temp", .vbool true)] true [] rfl rfl rfl
  exact ⟨h.1, h.2.1⟩

theorem timingsGet_timingsSet (t : List (String × ℚ)) (k : String) (v : ℚ)
    (k' : String) :
    timingsGet (timingsSet t k v) k' = if k = k' then some v else timingsGet t k' := by
  induction t with
  | nil => simp [timingsSet, timingsGet]
  | cons kv rest ih =>
    rw [timingsSet]
    by_cases h : kv.1 = k
    · rw [if_pos h]
      by_cases h2 : k = k'
      · simp [timingsGet, h2]
      · have h3 : ¬(kv.1 = k') := by rw [h]; exact h2
        simp [timingsGet, h2, h3]
    · rw [if_neg h]
      by_cases h2 : k = k'
      · subst h2
        simp [timingsGet, h, ih]
      · by_cases h3 : kv.1 = k'
        · simp [timingsGet, h2, h3]
        · simp [timingsGet, h2, h3, ih]

theorem timingsAdd_mono (t : List (String × ℚ)) (name : String) (dt : ℚ)
    (hdt : 0 ≤ dt) (k : String) (q : ℚ) (h : timingsGet t k = some q) :
    ∃ q2, timingsGet (timingsAdd t name dt) k = some q2 ∧ q ≤ q2 := by
  unfold timingsAdd
  rw [timingsGet_timingsSet]
  by_cases hk : name = k
  · subst hk
    rw [if_pos rfl, h]
    refine ⟨q + dt, rfl, by linarith⟩
  · rw [if_neg hk]
    exact ⟨q, h, le_refl q⟩

theorem timingsSet_present (t : List (String × ℚ)) (name : String) (v : ℚ)
    (k : String) (q : ℚ) (h : timingsGet t k = some q) :
    ∃ q2, timingsGet (timingsSet t name v) k = some q2 := by
  rw [timingsGet_timingsSet]
  by_cases h2 : name = k
  · exact ⟨v, by rw [if_pos h2]⟩
  · exact ⟨q, by rw [if_neg h2]; exact h⟩

theorem timingsSet_other (t : List (String × ℚ)) (name : String) (v : ℚ)
    (k : String) (q : ℚ) (hk : k ≠ name) (h : timingsGet t k = some q) :
    timingsGet (timingsSet t name v) k = some q := by
  rw [timingsGet_timingsSet, if_neg (fun hh => hk hh.symm)]
  exact h

theorem statsMono_refl (s : PipelineStats) : StatsMono s s :=
  ⟨le_refl _, le_refl _, fun _ q h => ⟨q, h⟩, fun _ q _ h => ⟨q, h, le_refl q⟩⟩

theorem statsMono_trans (s1 s2 s3 : PipelineStats) (h1 : StatsMono s1 s2)
    (h2 : StatsMono s2 s3) : StatsMono s1 s3 := by
  refine ⟨le_trans h1.1 h2.1, le_trans h1.2.1 h2.2.1, ?_, ?_⟩
  · intro k q h
    rcases h1.2.2.1 k q h with ⟨q2, hq2⟩
    exact h2.2.2.1 k q2 hq2
  · intro k q hk h
    rcases h1.2.2.2 k q hk h with ⟨q2, hq2, hle⟩
    rcases h2.2.2.2 k q2 hk hq2 with ⟨q3, hq3, hle2⟩
    exact ⟨q3, hq3, le_trans hle hle2⟩

theorem statsMono_same_timings (s1 s2 : PipelineStats)
    (hpf : s1.processed + s1.failed ≤ s2.processed + s2.failed)
    (hr : s1.recovered ≤ s2.recovered)
    (ht : s1.stage_timings_s = s2.stage_timings_s) : StatsMono s1 s2 := by
  refine ⟨hpf, hr, ?_, ?_⟩
  · intro k q h
    exact ⟨q, ht ▸ h⟩
  · intro k q _ h
    exact ⟨q, ht ▸ h, le_refl q⟩

theorem clock_tick_nonneg (c : Clock) (h : c.Nonneg) :
    0 ≤ (c.tick).1 ∧ (c.tick).2.Nonneg := by
  constructor
  · show (0 : ℚ) ≤ c.durs.headD 0
    cases hd : c.durs with
    | nil => simp
    | cons d ds =>
      simp only [List.headD_cons]
      exact h d (by rw [hd]; exact List.mem_cons_self d ds)
  · intro x hx
    exact h x (List.mem_of_mem_tail hx)

theorem run_stages_mono (ss : List Stage) (v : Val) (st : PipelineStats)
    (c : Clock) (hc : Clock.Nonneg c) :
    StatsMono st (run_stages ss v st c).2.1 ∧
    Clock.Nonneg (run_stages ss v st c).2.2 := by
  induction ss generalizing v st c with
  | nil => exact ⟨statsMono_refl st, hc⟩
  | cons s rest ih =>
    have htick := clock_tick_nonneg c hc
    simp only [run_stages]
    cases h : stageProcess s v with
    | error e => exact ⟨statsMono_refl st, htick.2⟩
    | ok v1 =>
      have hstep : StatsMono st
          { st with stage_timings_s :=
              timingsAdd st.stage_timings_s (stageName s) (c.tick).1 } := by
        refine ⟨le_refl _, le_refl _, ?_, ?_⟩
        · intro k q hq
          rcases timingsAdd_mono st.stage_timings_s (stageName s) (c.tick).1
            htick.1 k q hq with ⟨q2, hq2, _⟩
          exact ⟨q2, hq2⟩
        · intro k q _ hq
          exact timingsAdd_mono st.stage_timings_s (stageName s) (c.tick).1
            htick.1 k q hq
      have hrest := ih v1
        { st with stage_timings_s :=
            timingsAdd st.stage_timings_s (stageName s) (c.tick).1 } (c.tick).2 htick.2
      exact ⟨statsMono_trans _ _ _ hstep hrest.1, hrest.2⟩

theorem recover_mono (p : PipeState) (d : Val) (e : PyErr) (c : Clock)
    (hc : Clock.Nonneg c) :
    StatsMono p.stats (recover p d e c).2.1.stats ∧
    Clock.Nonneg (recover p d e c).2.2 := by
  have h1 : StatsMono p.stats
      { p.stats with recovered := p.stats.recovered + 1, last_error := errDesc e } :=
    statsMono_same_timings _ _ (le_refl _) (Nat.le_succ _) rfl
  have h2 := run_stages_mono (p.stages.map swapStage) d
    { p.stats with recovered := p.stats.recovered + 1, last_error := errDesc e } c hc
  exact ⟨statsMono_trans _ _ _ h1 h2.1, h2.2⟩

theorem statsMono_bumpProcessed (st : PipelineStats) :
    StatsMono st (bumpProcessed st) :=
  statsMono_same_timings _ _ (by simp only [bumpProcessed]; omega) (le_refl _) rfl

theorem statsMono_bumpFailed (st : PipelineStats) :
    StatsMono st (bumpFailed st) :=
  statsMono_same_timings _ _ (by simp only [bumpFailed]; omega) (le_refl _) rfl

theorem statsMono_csv_set (st : PipelineStats) (n : ℚ) :
    StatsMono st
      { bumpProcessed st with
          stage_timings_s :=
            timingsSet (bumpProcessed st).stage_timings_s "csv_columns" n } := by
  refine ⟨by simp only [bumpProcessed]; omega, le_refl _, ?_, ?_⟩
  · intro k q h
    exact timingsSet_present st.stage_timings_s "csv_columns" n k q h
  · intro k q hk h
    exact ⟨q, timingsSet_other st.stage_timings_s "csv_columns" n k q hk h, le_refl q⟩

theorem adapterAttempt_mono (a : AdapterState) (d : Val) (c : Clock)
    (hc : Clock.Nonneg c) :
    StatsMono a.pipe.stats (adapterAttempt a d c).2.1 ∧
    Clock.Nonneg (adapterAttempt a d c).2.2.2 := by
  rcases a with ⟨k, p, w⟩
  cases k with
  | json =>
    unfold adapterAttempt
    cases hj : jsonParseData d with
    | error e1 => simp only [hj]; exact ⟨statsMono_refl _, hc⟩
    | ok parsed =>
      simp only [hj]
      have hrun := run_stages_mono p.stages parsed p.stats c hc
      cases hr : (run_stages p.stages parsed p.stats c).1 with
      | error e1 => simp only [hr]; exact ⟨hrun.1, hrun.2⟩
      | ok result =>
        simp only [hr]
        cases hf : jsonFormat result with
        | error e1 => simp only [hf]; exact ⟨hrun.1, hrun.2⟩
        | ok out =>
          simp only [hf]
          exact ⟨statsMono_trans _ _ _ hrun.1 (statsMono_bumpProcessed _), hrun.2⟩
  | csv =>
    unfold adapterAttempt
    cases hj : csvLine d with
    | error e1 => simp only [hj]; exact ⟨statsMono_refl _, hc⟩
    | ok line =>
      simp only [hj]
      have hrun := run_stages_mono p.stages line p.stats c hc
      cases hr : (run_stages p.stages line p.stats c).1 with
      | error e1 => simp only [hr]; exact ⟨hrun.1, hrun.2⟩
      | ok result =>
        simp only [hr]
        set headerV := (match result with
            | Val.vdict kvs => dictGetD kvs "csv_header" (Val.vlist [])
            | _ => Val.vlist []) with hv
        cases hi : pyIter headerV with
        | error e1 => simp only [hi]; exact ⟨hrun.1, hrun.2⟩
        | ok hs =>
          simp only [hi]
          exact ⟨statsMono_trans _ _ _ hrun.1 (statsMono_csv_set _ _), hrun.2⟩
  | stream =>
    unfold adapterAttempt
    cases d with
    | vstr s =>
      have hrun := run_stages_mono p.stages (.vstr s) p.stats c hc
      cases hr : (run_stages p.stages (.vstr s) p.stats c).1 with
      | error e1 => simp only [hr]; exact ⟨hrun.1, hrun.2⟩
      | ok result =>
        simp only [hr]
        exact ⟨statsMono_trans _ _ _ hrun.1 (statsMono_bumpProcessed _), hrun.2⟩
    | vlist xs =>
      have hrun := run_stages_mono p.stages (.vlist xs) p.stats c hc
      cases hr : (run_stages p.stages (.vlist xs) p.stats c).1 with
      | error e1 => simp only [hr]; exact ⟨hrun.1, hrun.2⟩
      | ok cleaned =>
        simp only [hr]
        cases hi : pyIter cleaned with
        | error e1 => simp only [hi]; exact ⟨hrun.1, hrun.2⟩
        | ok items =>
          simp only [hi]
          exact ⟨statsMono_trans _ _ _ hrun.1 (statsMono_bumpProcessed _), hrun.2⟩
    | vnull => exact ⟨statsMono_refl _, hc⟩
    | vbool b => exact ⟨statsMono_refl _, hc⟩
    | vint n => exact ⟨statsMono_refl _, hc⟩
    | vfloat q => exact ⟨statsMono_refl _, hc⟩
    | vdict kvs => exact ⟨statsMono_refl _, hc⟩

theorem processCore_mono (a : AdapterState) (d : Val) (res : Except PyErr String)
    (st1 : PipelineStats) (w1 : List ℚ) (c1 : Clock) (hc : Clock.Nonneg c1) :
    StatsMono st1 (processCore a d res st1 w1 c1).2.1.pipe.stats := by
  unfold processCore
  split
  · exact statsMono_same_timings _ _ (le_refl _) (le_refl _) rfl
  · rename_i e
    split
    · split
      · next rv p3 c2 heq =>
        have h1 := statsMono_bumpFailed st1
        have h2 := (recover_mono (setStats a.pipe (bumpFailed st1)) d e c1 hc).1
        rw [heq] at h2
        exact statsMono_trans _ _ _ h1 (statsMono_trans _ _ _ h2
          (statsMono_trans _ _ _ (statsMono_bumpProcessed p3.stats)
            (statsMono_same_timings _ _ (le_refl _) (le_refl _) rfl)))
      · next e2 p3 c2 heq =>
        have h1 := statsMono_bumpFailed st1
        have h2 := (recover_mono (setStats a.pipe (bumpFailed st1)) d e c1 hc).1
        rw [heq] at h2
        exact statsMono_trans _ _ _ h1 (statsMono_trans _ _ _ h2
          (statsMono_same_timings _ _ (le_refl _) (le_refl _) rfl))
    · exact statsMono_trans _ _ _ (statsMono_bumpFailed st1)
        (statsMono_same_timings _ _ (le_refl _) (le_refl _) rfl)

/-- Claim C4 (corrected), counterexample to the claim as stated: the
stage-timing map's value can decrease.  The tabular-header adapter stores
the latest header column count under the `csv_columns` key of the timing
map by plain assignment, so processing the three-column demo header and
then a one-piece header line drops that entry from 3 to 0. -/
theorem c4_timings_shrink_counterexample :
    timingsGet ((mkAdapter .csv "PIPE_CSV").process (.vstr "user,action,timestamp")
      ⟨[]⟩).2.1.pipe.stats.stage_timings_s "csv_columns" = some 3 ∧
    timingsGet ((((mkAdapter .csv "PIPE_CSV").process (.vstr "user,action,timestamp")
      ⟨[]⟩).2.1).process (.vstr "x") ⟨[]⟩).2.1.pipe.stats.stage_timings_s "csv_columns" =
      some 0 ∧
    ¬ ((3 : ℚ) ≤ 0) := by
  refine ⟨by with_unfolding_all rfl, by with_unfolding_all rfl, by norm_num⟩

/-- Claim C4 (corrected), amended: across every adapter `process` call run
under nonnegative measured durations, `processed + failed` never decreases,
`recovered` never decreases, and the stage-timing map never loses a key and
never decreases in value at any key other than `csv_columns`; the
`csv_columns` entry, which the tabular adapter overwrites with the latest
header column count, is exempted because it can decrease. -/
theorem c4_stats_monotone_amended (a : AdapterState) (d : Val) (c : Clock)
    (hc : Clock.Nonneg c) :
    StatsMono a.pipe.stats ((a.process d c).2.1.pipe.stats) := by
  have h1 := adapterAttempt_mono a d c hc
  have h2 := processCore_mono a d (adapterAttempt a d c).1 (adapterAttempt a d c).2.1
    (adapterAttempt a d c).2.2.1 (adapterAttempt a d c).2.2.2 h1.2
  exact statsMono_trans _ _ _ h1.1 h2

/-- Claim C4 witness: monotonicity instantiated on the CSV adapter and the
demo header line under the zero-duration clock. -/
theorem c4_stats_monotone_amended_witness :
    StatsMono (mkAdapter .csv "PIPE_CSV").pipe.stats
      (((mkAdapter .csv "PIPE_CSV").process (.vstr "user,action,timestamp")
        ⟨[]⟩).2.1.pipe.stats) :=
  c4_stats_monotone_amended (mkAdapter .csv "PIPE_CSV")
    (.vstr "user,action,timestamp") ⟨[]⟩ (by intro d hd; simp at hd)
